import Mathlib

/-!
Shallow embedding of `src/antispam/libs/hikari.py` (the hikari backend of
DPY-Anti-Spam) together with proofs checking the natural-language
specification against it.

Conventions used throughout:
* machine integers are `Nat`/`Int` (Python ints are unbounded, so no wrapping);
* fallible Python code is embedded as `Except PyErr`;
* remote calls (`await ...`) are made explicit: their outcomes are fields of an
  environment record, and the sequence of calls actually performed is returned
  as an effect trace;
* Python truthiness (`if x:`) is modelled by explicit `pyTruthy*` helpers.
-/

/-- Exceptions that appear in the source (hikari errors, antispam errors and
the builtin exceptions `ast.literal_eval` can raise).  `templateParseError`
never occurs in the code: the constructor exists only so that the spec's claim
about a typed template-parsing error can be stated and compared. -/
inductive PyErr where
  | syntaxError
  | valueError
  | typeError
  | keyError (k : String)
  | notFoundError
  | forbiddenError
  | unauthorizedError
  | rateLimitTooLongError
  | internalServerError
  | missingGuildPermissions (msg : String)
  | logicError
  | templateParseError
  deriving DecidableEq, Repr

/-- Truthiness of an optional integer field (`None` and `0` are falsy). -/
def pyTruthyOptNat : Option Nat → Bool
  | none => false
  | some n => n != 0

/-- Python `str.replace(old, new)`: replace every (left-to-right,
non-overlapping) occurrence of `pat` by `repl`.  Fuel-indexed recursion; the
fuel is the length of the subject string, which suffices because every step
consumes at least one character. -/
def replaceAux (pat repl : List Char) : Nat → List Char → List Char
  | 0, s => s
  | _ + 1, [] => []
  | fuel + 1, c :: rest =>
    if pat ≠ [] ∧ pat.isPrefixOf (c :: rest) then
      repl ++ replaceAux pat repl fuel ((c :: rest).drop pat.length)
    else
      c :: replaceAux pat repl fuel rest

/-- Python `s.replace(pat, repl)` for the nonempty patterns used in the
source. -/
def pyReplace (s pat repl : String) : String :=
  String.mk (replaceAux pat.data repl.data s.data.length s.data)

/-! ## Entity Normalizer (`create_message`, `embed_to_string`) -/

/-- Serialized embed footer, as produced by
`entity_factory.serialize_embed` (a dict that may carry a `"text"` key). -/
structure EmbedFooter where
  text : Option String
  deriving DecidableEq, Repr

/-- Serialized embed author (the code reads `embed["author"]["name"]`
unconditionally, so `name` is mandatory here). -/
structure EmbedAuthor where
  name : String
  deriving DecidableEq, Repr

/-- Serialized embed field. -/
structure EmbedField where
  name : String
  value : String
  deriving DecidableEq, Repr

/-- A serialized hikari embed, restricted to the keys `embed_to_string`
reads. -/
structure SerializedEmbed where
  title : Option String
  description : Option String
  footer : Option EmbedFooter
  author : Option EmbedAuthor
  fields : Option (List EmbedField)
  deriving DecidableEq, Repr

/-- Embedding of `Hikari.embed_to_string`: flatten a serialized embed to plain
text, one line per present part, fields as name then value lines. -/
def embed_to_string (embed : SerializedEmbed) : String :=
  let content := ""
  let content := match embed.title with
    | some t => content ++ t ++ "\n"
    | none => content
  let content := match embed.description with
    | some d => content ++ d ++ "\n"
    | none => content
  let content := match embed.footer with
    | some f =>
      match f.text with
      | some t => content ++ t ++ "\n"
      | none => content
    | none => content
  let content := match embed.author with
    | some a => content ++ a.name ++ "\n"
    | none => content
  match embed.fields with
  | some fs => fs.foldl (fun c f => c ++ f.name ++ "\n" ++ f.value ++ "\n") content
  | none => content

/-- The inbound hikari message, restricted to the attributes the library
reads.  `content` is `Option String` because hikari messages may carry no text
body. -/
structure HikariMessage where
  id : Nat
  channel_id : Nat
  guild_id : Option Nat
  author_id : Nat
  content : Option String
  embeds : List SerializedEmbed
  deriving DecidableEq, Repr

/-- The antispam `Message` dataclass produced by `create_message`. -/
structure AntispamMessage where
  id : Nat
  channel_id : Nat
  guild_id : Option Nat
  author_id : Nat
  content : String
  deriving DecidableEq, Repr

/-- Python `str.strip()`: remove leading and trailing whitespace. -/
def pyStrip (s : String) : String :=
  String.mk
    (((s.data.dropWhile Char.isWhitespace).reverse.dropWhile Char.isWhitespace).reverse)

/-- Truthiness of `bool(message.content and message.content.strip())`. -/
def contentNonBlank : Option String → Bool
  | none => false
  | some s => pyStrip s != ""

/-- The six string literals the source removes when
`delete_zero_width_chars` is set.  The Python source writes
`content.replace("u200B", "") ...`: the backslash of the intended escape
`"​"` is missing, so each literal is a plain five- or six-character ASCII
string, not a zero-width code point. -/
def zeroWidthLiterals : List String :=
  ["u200B", "u200C", "u200D", "u200E", "u200F", "uFEFF"]

/-- Embedding of `Hikari.create_message`.  The `isinstance(embed, Embed)`
guard of the source is vacuous in this model because the embed list is typed;
the empty-embeds guard (`raise LogicError`) is kept. -/
def create_message (delete_zero_width_chars : Bool) (message : HikariMessage) :
    Except PyErr AntispamMessage :=
  match
    (if contentNonBlank message.content then
      Except.ok (message.content.getD "")
    else
      match message.embeds with
      | [] => Except.error PyErr.logicError
      | embed :: _ => Except.ok (embed_to_string embed) :
      Except PyErr String) with
  | Except.error e => Except.error e
  | Except.ok content =>
    let content :=
      if delete_zero_width_chars then
        zeroWidthLiterals.foldl (fun c lit => pyReplace c lit "") content
      else content
    Except.ok
      { id := message.id
        channel_id := message.channel_id
        guild_id := message.guild_id
        author_id := message.author_id
        content := content }

/-- Concrete message whose text carries a real zero-width space (U+200B). -/
def c1UnicodeMsg : HikariMessage :=
  { id := 1, channel_id := 2, guild_id := some 3, author_id := 4
    content := some "a​b", embeds := [] }

/-- Concrete message whose text carries the ASCII letters `u200B`. -/
def c1AsciiMsg : HikariMessage :=
  { id := 1, channel_id := 2, guild_id := some 3, author_id := 4
    content := some "au200Bb", embeds := [] }

/-- C1: the claim says that with `delete_zero_width_chars` enabled the
normalized content contains no U+200B.  The code instead removes the ASCII
substring `"u200B"` (the escape's backslash is missing in the source), so a
real U+200B survives normalization while the harmless ASCII text `u200B` is
deleted. -/
theorem C1_zero_width_chars_survive :
    create_message true c1UnicodeMsg =
      Except.ok { id := 1, channel_id := 2, guild_id := some 3, author_id := 4
                  content := "a​b" } ∧
    '​' ∈ "a​b".data ∧
    create_message true c1AsciiMsg =
      Except.ok { id := 1, channel_id := 2, guild_id := some 3, author_id := 4
                  content := "ab" } := by
  refine ⟨by rfl, by decide, by rfl⟩

/-! ## Template Engine: `string.Template.safe_substitute` and
`substitute_args` -/

/-- First character of a Python `string.Template` identifier
(`[_a-zA-Z]`). -/
def isIdStart (c : Char) : Bool :=
  decide (('a' ≤ c ∧ c ≤ 'z') ∨ ('A' ≤ c ∧ c ≤ 'Z') ∨ c = '_')

/-- Continuation character of a template identifier (`[_a-zA-Z0-9]`). -/
def isIdCont (c : Char) : Bool :=
  isIdStart c || decide ('0' ≤ c ∧ c ≤ '9')

/-- Result of one step of the `Template` scanner on input `c :: cs`:
`out` is what `safe_substitute`'s convert function emits for the leftmost
match (or the single literal character when `c` starts no match), `rest` is
the input remaining after the match, and `plain` records whether the step left
the consumed text verbatim (it is `false` exactly for the `$$` escape and for
a token found in the mapping). -/
structure SubStepOut where
  out : List Char
  rest : List Char
  plain : Bool
  deriving Repr

/-- One step of the scan underlying `Template.safe_substitute` with the
default pattern: at `$` it recognises, in order, the escape `$$`, a named
identifier, a braced identifier, or the invalid empty match (which leaves the
lone `$` in place); any other character is copied. Unknown named and braced
tokens are emitted verbatim, as `safe_substitute`'s convert function does on
`KeyError`. -/
def subStep (m : List (String × String)) (c : Char) (cs : List Char) :
    SubStepOut :=
  if c = '$' then
    match cs with
    | [] => ⟨['$'], [], true⟩
    | '$' :: rest => ⟨['$'], rest, false⟩
    | '{' :: rest =>
      (match rest with
       | d :: _ =>
         if isIdStart d then
           match rest.dropWhile isIdCont with
           | '}' :: rest2 =>
             (match List.lookup (String.mk (rest.takeWhile isIdCont)) m with
              | some v => ⟨v.data, rest2, false⟩
              | none => ⟨'$' :: '{' :: (rest.takeWhile isIdCont ++ ['}']), rest2, true⟩)
           | _ => ⟨['$'], cs, true⟩
         else ⟨['$'], cs, true⟩
       | [] => ⟨['$'], cs, true⟩)
    | d :: _ =>
      if isIdStart d then
        (match List.lookup (String.mk (cs.takeWhile isIdCont)) m with
         | some v => ⟨v.data, cs.dropWhile isIdCont, false⟩
         | none => ⟨'$' :: cs.takeWhile isIdCont, cs.dropWhile isIdCont, true⟩)
      else ⟨['$'], cs, true⟩
  else ⟨[c], cs, true⟩

/-- Full scan of `Template.safe_substitute`, fuel-indexed; every step consumes
at least one character, so fuel equal to the input length completes the
scan. -/
def safeSubAux (m : List (String × String)) : Nat → List Char → List Char
  | 0, cs => cs
  | _ + 1, [] => []
  | fuel + 1, c :: cs =>
    let s := subStep m c cs
    s.out ++ safeSubAux m fuel s.rest

/-- Embedding of Python `Template(message).safe_substitute(mapping)`. -/
def pySafeSubstitute (m : List (String × String)) (s : String) : String :=
  String.mk (safeSubAux m s.data.length s.data)

/-- Decides that every scanner step on the string is plain: no `$$` escape
and no token of the mapping is ever hit. -/
def onlyUnknownAux (m : List (String × String)) : Nat → List Char → Bool
  | 0, _ => false
  | _ + 1, [] => true
  | fuel + 1, c :: cs =>
    let s := subStep m c cs
    s.plain && onlyUnknownAux m fuel s.rest

/-- A string whose tokens are all unknown to the mapping (and which contains
no `$$` escape). -/
def onlyUnknownTokens (m : List (String × String)) (s : String) : Bool :=
  onlyUnknownAux m s.data.length s.data

/-- Reassembly fact for the unknown-braced-token step. -/
theorem bracedReassemble (l rest2 : List Char)
    (hdrop : List.dropWhile isIdCont l = '}' :: rest2) :
    ('$' :: '{' :: (List.takeWhile isIdCont l ++ ['}'])) ++ rest2 =
      '$' :: '{' :: l := by
  have hta := List.takeWhile_append_dropWhile isIdCont l
  rw [hdrop] at hta
  simp only [List.cons_append, List.append_assoc, List.cons.injEq, true_and,
    List.singleton_append]
  exact hta

/-- Reassembly fact for the unknown-named-token step. -/
theorem namedReassemble (l : List Char) :
    ('$' :: List.takeWhile isIdCont l) ++ List.dropWhile isIdCont l =
      '$' :: l := by
  simp [List.takeWhile_append_dropWhile]

theorem subStep_plain_preserves (m : List (String × String)) (c : Char)
    (cs : List Char) (h : (subStep m c cs).plain = true) :
    (subStep m c cs).out ++ (subStep m c cs).rest = c :: cs := by
  rcases hr : subStep m c cs with ⟨o, r, p⟩
  rw [hr] at h
  simp only at h ⊢
  unfold subStep at hr
  split at hr
  · rename_i hc
    subst hc
    split at hr
    · cases hr
      simp
    · cases hr
      simp at h
    · split at hr
      · split at hr
        · split at hr
          · split at hr
            · cases hr
              simp at h
            · cases hr
              exact bracedReassemble _ _ (by assumption)
          · cases hr
            simp
        · cases hr
          simp
      · cases hr
        simp
    · split at hr
      · split at hr
        · cases hr
          simp at h
        · cases hr
          exact namedReassemble _
      · cases hr
        simp
  · cases hr
    simp

/-- If every step of the scan is plain, the scan is the identity. -/
theorem safeSubAux_eq_self (m : List (String × String)) :
    ∀ fuel cs, onlyUnknownAux m fuel cs = true → safeSubAux m fuel cs = cs := by
  intro fuel
  induction fuel with
  | zero =>
    intro cs h
    simp [onlyUnknownAux] at h
  | succ fuel ih =>
    intro cs h
    match cs with
    | [] => rfl
    | c :: cs' =>
      simp only [onlyUnknownAux, Bool.and_eq_true] at h
      simp only [safeSubAux]
      rw [ih _ h.2]
      exact subStep_plain_preserves m c cs' h.1

/-- Substitution context of `substitute_args`: the values the source reads
from the cached guild, the bot member, the message author and the clock.
`timestampNow`/`timestampToday` stand for `datetime.now()` already rendered in
the source's two fixed formats; `createdAtIso` stands for
`message.created_at.isoformat()` (used by `dict_to_embed`). -/
structure SubstCtx where
  authorMention : String
  authorUsername : String
  authorId : Nat
  botUsername : String
  botId : Nat
  guildId : Nat
  guildName : String
  timestampNow : String
  timestampToday : String
  userAvatarUrl : String
  botAvatarUrl : String
  guildIconUrl : String
  createdAtIso : String
  deriving DecidableEq, Repr

/-- The token table passed to `Template.safe_substitute` by
`Hikari.substitute_args`, with non-string values already passed through
Python's `str` (as `safe_substitute` does). -/
def substitutionMapping (ctx : SubstCtx) (warn_count kick_count : Int) :
    List (String × String) :=
  [("MENTIONUSER", ctx.authorMention),
   ("USERNAME", ctx.authorUsername),
   ("USERID", toString ctx.authorId),
   ("BOTNAME", ctx.botUsername),
   ("BOTID", toString ctx.botId),
   ("GUILDID", toString ctx.guildId),
   ("GUILDNAME", ctx.guildName),
   ("TIMESTAMPNOW", ctx.timestampNow),
   ("TIMESTAMPTODAY", ctx.timestampToday),
   ("WARNCOUNT", toString warn_count),
   ("KICKCOUNT", toString kick_count),
   ("USERAVATAR", ctx.userAvatarUrl),
   ("BOTAVATAR", ctx.botAvatarUrl),
   ("GUILDICON", ctx.guildIconUrl)]

/-- Embedding of `Hikari.substitute_args`. -/
def substitute_args (ctx : SubstCtx) (message : String)
    (warn_count kick_count : Int) : String :=
  pySafeSubstitute (substitutionMapping ctx warn_count kick_count) message

/-- C8: substitution is the identity on any input whose tokens are all
unknown to the token table (and which contains no `$$` escape); in particular
unknown tokens are left verbatim and never fail the render. -/
theorem C8_substitute_unknown_tokens (ctx : SubstCtx)
    (warn_count kick_count : Int) (s : String)
    (h : onlyUnknownTokens (substitutionMapping ctx warn_count kick_count) s =
      true) :
    substitute_args ctx s warn_count kick_count = s := by
  unfold substitute_args pySafeSubstitute
  rw [safeSubAux_eq_self _ _ _ h]

/-- Concrete substitution context used by the witnesses. -/
def ctx0 : SubstCtx :=
  { authorMention := "<@4>", authorUsername := "alice", authorId := 4
    botUsername := "bot", botId := 9, guildId := 10, guildName := "g"
    timestampNow := "01:02:03 PM, 05/06/2026", timestampToday := "05/06/2026"
    userAvatarUrl := "ua", botAvatarUrl := "ba", guildIconUrl := "gi"
    createdAtIso := "2026-06-05T13:02:03" }

/-- Witness for C8 at the spec's own example `"$NOPE"`. -/
theorem C8_substitute_unknown_tokens_witness :
    onlyUnknownTokens (substitutionMapping ctx0 1 2) "$NOPE" = true ∧
    substitute_args ctx0 "$NOPE" 1 2 = "$NOPE" :=
  ⟨by decide, C8_substitute_unknown_tokens ctx0 1 2 "$NOPE" (by decide)⟩

/-! ## Template Engine: `visualizer`, `ast.literal_eval`,
`dict_to_embed`, `transform_message` -/

/-- Python values produced by `ast.literal_eval` on the literals this library
consumes (dicts, lists, strings, ints, booleans, `None`). -/
inductive PyVal where
  | str (s : String)
  | int (n : Int)
  | bool (b : Bool)
  | pynone
  | list (xs : List PyVal)
  | dict (xs : List (PyVal × PyVal))
  deriving Repr

/-- Whitespace skipped by the literal parser. -/
def skipWs (cs : List Char) : List Char :=
  cs.dropWhile (fun c => c = ' ' || c = '\t' || c = '\n' || c = '\r')

/-- Decimal digit test. -/
def isDigitCh (c : Char) : Bool :=
  decide ('0' ≤ c ∧ c ≤ '9')

/-- Value of a (nonempty) digit run. -/
def digitsToNat (ds : List Char) : Nat :=
  ds.foldl (fun n c => n * 10 + (c.toNat - 48)) 0

/-- Escape characters recognised inside string literals. -/
def escChar : Char → Option Char
  | 'n' => some '\n'
  | 't' => some '\t'
  | '\\' => some '\\'
  | '\'' => some '\''
  | '"' => some '"'
  | _ => none

/-- Body of a quoted string literal up to the closing quote `q`. -/
def parseStrBody (q : Char) : Nat → List Char → Except PyErr (List Char × List Char)
  | 0, _ => Except.error PyErr.syntaxError
  | _ + 1, [] => Except.error PyErr.syntaxError
  | fuel + 1, c :: rest =>
    if c = q then Except.ok ([], rest)
    else if c = '\\' then
      match rest with
      | [] => Except.error PyErr.syntaxError
      | e :: rest2 =>
        match escChar e with
        | some ec => (parseStrBody q fuel rest2).map (fun p => (ec :: p.1, p.2))
        | none => Except.error PyErr.syntaxError
    else (parseStrBody q fuel rest).map (fun p => (c :: p.1, p.2))

mutual

/-- Recursive-descent parser for the Python literals `ast.literal_eval`
accepts on this library's inputs; malformed input fails with the parser's own
(untyped) `SyntaxError`/`ValueError`, exactly as `ast.literal_eval` does. -/
def parseVal : Nat → List Char → Except PyErr (PyVal × List Char)
  | 0, _ => Except.error PyErr.syntaxError
  | fuel + 1, cs =>
    match skipWs cs with
    | [] => Except.error PyErr.syntaxError
    | '{' :: rest =>
      (match skipWs rest with
       | '}' :: rest2 => Except.ok (PyVal.dict [], rest2)
       | rest2 => (parseDictItems fuel rest2).map (fun p => (PyVal.dict p.1, p.2)))
    | '[' :: rest =>
      (match skipWs rest with
       | ']' :: rest2 => Except.ok (PyVal.list [], rest2)
       | rest2 => (parseListItems fuel rest2).map (fun p => (PyVal.list p.1, p.2)))
    | '"' :: rest =>
      (parseStrBody '"' fuel rest).map (fun p => (PyVal.str (String.mk p.1), p.2))
    | '\'' :: rest =>
      (parseStrBody '\'' fuel rest).map (fun p => (PyVal.str (String.mk p.1), p.2))
    | '-' :: rest =>
      (match rest.takeWhile isDigitCh with
       | [] => Except.error PyErr.valueError
       | ds => Except.ok (PyVal.int (-(digitsToNat ds : Int)), rest.dropWhile isDigitCh))
    | c :: rest =>
      if isDigitCh c then
        Except.ok (PyVal.int (digitsToNat ((c :: rest).takeWhile isDigitCh)),
          (c :: rest).dropWhile isDigitCh)
      else if ("True".data).isPrefixOf (c :: rest) then
        Except.ok (PyVal.bool true, (c :: rest).drop 4)
      else if ("False".data).isPrefixOf (c :: rest) then
        Except.ok (PyVal.bool false, (c :: rest).drop 5)
      else if ("None".data).isPrefixOf (c :: rest) then
        Except.ok (PyVal.pynone, (c :: rest).drop 4)
      else Except.error PyErr.valueError

/-- One or more `key : value` dict entries followed by `}`. -/
def parseDictItems : Nat → List Char → Except PyErr (List (PyVal × PyVal) × List Char)
  | 0, _ => Except.error PyErr.syntaxError
  | fuel + 1, cs =>
    match parseVal fuel cs with
    | Except.error e => Except.error e
    | Except.ok (key, rest) =>
      match skipWs rest with
      | ':' :: rest2 =>
        (match parseVal fuel rest2 with
         | Except.error e => Except.error e
         | Except.ok (value, rest3) =>
           match skipWs rest3 with
           | ',' :: rest4 =>
             (match skipWs rest4 with
              | '}' :: rest5 => Except.ok ([(key, value)], rest5)
              | rest5 =>
                (parseDictItems fuel rest5).map
                  (fun p => ((key, value) :: p.1, p.2)))
           | '}' :: rest4 => Except.ok ([(key, value)], rest4)
           | _ => Except.error PyErr.syntaxError)
      | _ => Except.error PyErr.syntaxError

/-- One or more list items followed by `]`. -/
def parseListItems : Nat → List Char → Except PyErr (List PyVal × List Char)
  | 0, _ => Except.error PyErr.syntaxError
  | fuel + 1, cs =>
    match parseVal fuel cs with
    | Except.error e => Except.error e
    | Except.ok (item, rest) =>
      match skipWs rest with
      | ',' :: rest2 =>
        (match skipWs rest2 with
         | ']' :: rest3 => Except.ok ([item], rest3)
         | rest3 =>
           (parseListItems fuel rest3).map (fun p => (item :: p.1, p.2)))
      | ']' :: rest2 => Except.ok ([item], rest2)
      | _ => Except.error PyErr.syntaxError

end

/-- Embedding of `ast.literal_eval`: parse one literal and require the input
to be exhausted. -/
def literal_eval (s : String) : Except PyErr PyVal :=
  match parseVal (s.data.length * 4 + 16) s.data with
  | Except.error e => Except.error e
  | Except.ok (v, rest) =>
    match skipWs rest with
    | [] => Except.ok v
    | _ => Except.error PyErr.syntaxError

/-- Python `data[k]` / `k in data` for the string keys the source uses. -/
def isStrKey (k : String) (v : PyVal) : Bool :=
  match v with
  | PyVal.str s => s == k
  | _ => false

/-- Lookup of a string key in a parsed dict. -/
def dictGet (xs : List (PyVal × PyVal)) (k : String) : Option PyVal :=
  (xs.find? (fun p => isStrKey k p.1)).map (fun p => p.2)

/-- Python `data[k] = v`: overwrite in place, append when the key is new. -/
def dictSet : List (PyVal × PyVal) → String → PyVal → List (PyVal × PyVal)
  | [], k, v => [(PyVal.str k, v)]
  | (k0, v0) :: rest, k, v =>
    if isStrKey k k0 then (k0, v) :: rest else (k0, v0) :: dictSet rest k v

/-- Substitute a textual field of the embed dict when present
(`data[key] = substitute_args(data[key], ...)`); a non-string value makes
`Template(...)` fail, embedded as `TypeError`. -/
def subDictField (ctx : SubstCtx) (warn_count kick_count : Int)
    (data : List (PyVal × PyVal)) (key : String) :
    Except PyErr (List (PyVal × PyVal)) :=
  match dictGet data key with
  | none => Except.ok data
  | some (PyVal.str s) =>
    Except.ok (dictSet data key (PyVal.str (substitute_args ctx s warn_count kick_count)))
  | some _ => Except.error PyErr.typeError

/-- The `allowed_avatars` list of `dict_to_embed`. -/
def allowed_avatars : List String :=
  ["$USERAVATAR", "$BOTAVATAR", "$GUILDICON"]

/-- Substitute an `icon_url` sub-field only when its literal value is exactly
one of the avatar placeholder tokens. -/
def subIconUrl (ctx : SubstCtx) (warn_count kick_count : Int)
    (sub : List (PyVal × PyVal)) : List (PyVal × PyVal) :=
  match dictGet sub "icon_url" with
  | some (PyVal.str u) =>
    if u ∈ allowed_avatars then
      dictSet sub "icon_url" (PyVal.str (substitute_args ctx u warn_count kick_count))
    else sub
  | _ => sub

/-- Per-field rendering of one element of `data["fields"]`: substitute
`name` and `value` (mandatory keys) and default `inline` to `True`. -/
def renderEmbedField (ctx : SubstCtx) (warn_count kick_count : Int) :
    PyVal → Except PyErr PyVal
  | PyVal.dict f =>
    (match dictGet f "name" with
     | none => Except.error (PyErr.keyError "name")
     | some (PyVal.str n) =>
       match dictGet f "value" with
       | none => Except.error (PyErr.keyError "value")
       | some (PyVal.str v) =>
         let f := dictSet f "name" (PyVal.str (substitute_args ctx n warn_count kick_count))
         let f := dictSet f "value" (PyVal.str (substitute_args ctx v warn_count kick_count))
         let f := if (dictGet f "inline").isSome then f
           else dictSet f "inline" (PyVal.bool true)
         Except.ok (PyVal.dict f)
       | some _ => Except.error PyErr.typeError
     | some _ => Except.error PyErr.typeError)
  | _ => Except.error PyErr.typeError

/-- Embedding of `Hikari.dict_to_embed`: substitute the textual fields of a
parsed embed dict, guard `icon_url` fields by `allowed_avatars`, default
`inline`, overwrite `timestamp` with the message creation time, alias
`colour` to `color` and tag the result `type = "rich"`.  The result of
`deserialize_embed` is represented by the final dict. -/
def dict_to_embed (ctx : SubstCtx) (v : PyVal) (warn_count kick_count : Int) :
    Except PyErr PyVal :=
  match v with
  | PyVal.dict data =>
    (match subDictField ctx warn_count kick_count data "title" with
     | Except.error e => Except.error e
     | Except.ok data =>
     match subDictField ctx warn_count kick_count data "description" with
     | Except.error e => Except.error e
     | Except.ok data =>
     match
       (match dictGet data "footer" with
        | none => Except.ok data
        | some (PyVal.dict f) =>
          (match subDictField ctx warn_count kick_count f "text" with
           | Except.error e => Except.error e
           | Except.ok f =>
             Except.ok (dictSet data "footer"
               (PyVal.dict (subIconUrl ctx warn_count kick_count f))))
        | some _ => Except.error PyErr.typeError) with
     | Except.error e => Except.error e
     | Except.ok data =>
     match
       (match dictGet data "author" with
        | none => Except.ok data
        | some (PyVal.dict a) =>
          (match dictGet a "name" with
           | none => Except.error (PyErr.keyError "name")
           | some (PyVal.str n) =>
             let a := dictSet a "name"
               (PyVal.str (substitute_args ctx n warn_count kick_count))
             Except.ok (dictSet data "author"
               (PyVal.dict (subIconUrl ctx warn_count kick_count a)))
           | some _ => Except.error PyErr.typeError)
        | some _ => Except.error PyErr.typeError) with
     | Except.error e => Except.error e
     | Except.ok data =>
     match
       (match dictGet data "fields" with
        | none => Except.ok data
        | some (PyVal.list fs) =>
          (match fs.mapM (renderEmbedField ctx warn_count kick_count) with
           | Except.error e => Except.error e
           | Except.ok fs => Except.ok (dictSet data "fields" (PyVal.list fs)))
        | some _ => Except.error PyErr.typeError) with
     | Except.error e => Except.error e
     | Except.ok data =>
     let data := if (dictGet data "timestamp").isSome then
         dictSet data "timestamp" (PyVal.str ctx.createdAtIso)
       else data
     let data := match dictGet data "colour" with
       | some cv => dictSet data "color" cv
       | none => data
     Except.ok (PyVal.dict (dictSet data "type" (PyVal.str "rich"))))
  | _ => Except.error PyErr.typeError

/-- An argument of `transform_message`: either a raw configuration string or
a value produced by `ast.literal_eval`. -/
inductive TemplateInput where
  | str (s : String)
  | py (v : PyVal)
  deriving Repr

/-- A rendered notification: plain text or a rich-content embed (represented
by its final dict). -/
inductive RenderOutput where
  | text (s : String)
  | embed (data : PyVal)
  deriving Repr

/-- Embedding of `Hikari.transform_message`: strings (including parsed string
literals) go through `substitute_args`; everything else through
`dict_to_embed`. -/
def transform_message (ctx : SubstCtx) (item : TemplateInput)
    (warn_count kick_count : Int) : Except PyErr RenderOutput :=
  match item with
  | TemplateInput.str s =>
    Except.ok (RenderOutput.text (substitute_args ctx s warn_count kick_count))
  | TemplateInput.py (PyVal.str s) =>
    Except.ok (RenderOutput.text (substitute_args ctx s warn_count kick_count))
  | TemplateInput.py v =>
    (dict_to_embed ctx v warn_count kick_count).map RenderOutput.embed

/-- Python `content.startswith("{")`. -/
def startsWithBrace (s : String) : Bool :=
  match s.data with
  | '{' :: _ => true
  | _ => false

/-- Embedding of `Hikari.visualizer`: a raw configuration string starting with
`{` is parsed with `ast.literal_eval` (whose failure propagates untouched) and
rendered by `transform_message`; any other string is rendered directly. -/
def visualizer (ctx : SubstCtx) (content : String)
    (warn_count kick_count : Int) : Except PyErr RenderOutput :=
  if startsWithBrace content then
    match literal_eval content with
    | Except.error e => Except.error e
    | Except.ok v => transform_message ctx (TemplateInput.py v) warn_count kick_count
  else transform_message ctx (TemplateInput.str content) warn_count kick_count

/-- C6 counterexample: on the malformed structured literal `"{"` the render
fails with the parser's own untyped error (`SyntaxError` from
`ast.literal_eval`), not with the typed `TemplateParseError` the claim
names — no such error exists anywhere in the code. -/
theorem C6_counterexample_untyped_parse_error :
    visualizer ctx0 "\x7b" 1 2 = Except.error PyErr.syntaxError ∧
    PyErr.syntaxError ≠ PyErr.templateParseError := by
  exact ⟨by rfl, by decide⟩

/-- C6 (amended): a raw value starting with `{` is parsed as a structured
literal and rendered as rich content; a parse failure propagates as the
parser's own untyped error; any other value is rendered via plain-text
substitution. -/
theorem C6_renderInput_dispatch (ctx : SubstCtx) (content : String)
    (warn_count kick_count : Int) :
    (startsWithBrace content = true →
      ∀ e, literal_eval content = Except.error e →
        visualizer ctx content warn_count kick_count = Except.error e) ∧
    (startsWithBrace content = true →
      ∀ v, literal_eval content = Except.ok v →
        visualizer ctx content warn_count kick_count =
          transform_message ctx (TemplateInput.py v) warn_count kick_count) ∧
    (startsWithBrace content = false →
      visualizer ctx content warn_count kick_count =
        Except.ok (RenderOutput.text
          (substitute_args ctx content warn_count kick_count))) := by
  refine ⟨fun hb e he => ?_, fun hb v hv => ?_, fun hb => ?_⟩
  · unfold visualizer
    rw [if_pos hb, he]
  · unfold visualizer
    rw [if_pos hb, hv]
  · unfold visualizer
    rw [if_neg (by simp [hb])]
    rfl

/-- Witness for C6 (amended) at the malformed literal `"\x7bx"` and the plain
string `"hi"`. -/
theorem C6_renderInput_dispatch_witness :
    (startsWithBrace "\x7bx" = true ∧
      literal_eval "\x7bx" = Except.error PyErr.valueError ∧
      visualizer ctx0 "\x7bx" 1 2 = Except.error PyErr.valueError) ∧
    (startsWithBrace "hi" = false ∧
      visualizer ctx0 "hi" 1 2 =
        Except.ok (RenderOutput.text (substitute_args ctx0 "hi" 1 2))) :=
  ⟨⟨by decide, by rfl,
    (C6_renderInput_dispatch ctx0 "\x7bx" 1 2).1 (by decide) PyErr.valueError (by rfl)⟩,
   ⟨by decide, (C6_renderInput_dispatch ctx0 "hi" 1 2).2.2 (by decide)⟩⟩

/-! ## Permission Resolver and Eligibility Filter
(`_get_perms`, `check_message_can_be_propagated`) -/

/-- The hikari permission flags used by the source, as bits of a `Nat`
bitmask (`KICK_MEMBERS = 1 << 1`, `BAN_MEMBERS = 1 << 2`). -/
def KICK_MEMBERS : Nat := 2

/-- Ban-members capability bit (`1 << 2`). -/
def BAN_MEMBERS : Nat := 4

/-- A guild role: id, display name and permission bitmask. -/
structure Role where
  id : Nat
  name : String
  permissions : Nat
  deriving DecidableEq, Repr

/-- Embedding of `Hikari._get_perms`: bitwise union of the permission sets of
the member's roles, starting from `Permissions.NONE`. -/
def get_perms (roles : List Role) : Nat :=
  roles.foldl (fun perms role => perms ||| role.permissions) 0

/-- Python attribute lookup `perms.KICK_MEMBERS` on a flag *instance*: the
flag members are class attributes, so instance attribute access falls through
to the class and yields the constant member `Permissions.KICK_MEMBERS`
regardless of the instance's value.  (The boolean test the source intends
would be `perms & Permissions.KICK_MEMBERS`.) -/
def instAttrKICK_MEMBERS (_perms : Nat) : Nat := KICK_MEMBERS

/-- Python attribute lookup `perms.BAN_MEMBERS` on a flag instance; see
`instAttrKICK_MEMBERS`. -/
def instAttrBAN_MEMBERS (_perms : Nat) : Nat := BAN_MEMBERS

/-- Truthiness of a flag value (`Permissions` is truthy iff nonzero). -/
def pyTruthyNat (n : Nat) : Bool := n != 0

/-- An element of the `ignored_channels` / `ignored_roles` option lists,
which mix numeric ids and display names. -/
inductive IdOrName where
  | id (n : Nat)
  | name (s : String)
  deriving DecidableEq, Repr

/-- Python `x in options.ignored_...` for a numeric id. -/
def idIn (n : Nat) (xs : List IdOrName) : Bool :=
  xs.any (fun x => match x with | IdOrName.id m => m == n | _ => false)

/-- Python `x in options.ignored_...` for a display name. -/
def nameIn (s : String) (xs : List IdOrName) : Bool :=
  xs.any (fun x => match x with | IdOrName.name t => t == s | _ => false)

/-- The handler options read by this library. -/
structure Options where
  ignore_bots : Bool
  ignored_members : List Nat
  ignored_channels : List IdOrName
  ignored_roles : List IdOrName
  ignored_guilds : List Nat
  member_kick_message : TemplateInput
  member_ban_message : TemplateInput
  member_failed_kick_message : TemplateInput
  member_failed_ban_message : TemplateInput
  deriving Repr

/-- The typed rejection statuses raised as `PropagateFailure` by the
eligibility chain, carrying the data interpolated into the status string. -/
inductive Reject where
  | dm
  | selfAuthor
  | memberLookupFailed
  | ignoredBot
  | ignoredMember (authorId : Nat)
  | ignoredChannel (channelId : Nat)
  | ignoredRole (item : IdOrName)
  | ignoredGuild (guildId : Nat)
  deriving DecidableEq, Repr

/-- The `PropagateData` record handed to the scoring stage. -/
structure PropagateData where
  guild_id : Option Nat
  member_name : String
  member_id : Nat
  has_perms_to_make_guild : Bool
  deriving DecidableEq, Repr

/-- Everything `check_message_can_be_propagated` reads: the message, the
bot's identity, the cache lookups and the remote fetches, with the outcome of
each `await` made explicit. -/
structure PropagationState where
  messageGuildId : Option Nat
  messageChannelId : Nat
  authorId : Nat
  authorUsername : String
  authorIsBot : Bool
  botId : Nat
  memberFound : Bool
  memberRoleIds : List Nat
  memberRoles : Option (List Role)
  channelName : String
  botMemberRoles : List Role
  options : Options

/-- The `user_roles` list whose elements are tested against
`ignored_roles`: the member's role ids followed by the fetched roles' display
names. -/
def userRoleItems (roleIds : List Nat) (roles : List Role) : List IdOrName :=
  roleIds.map IdOrName.id ++ roles.map (fun r => IdOrName.name r.name)

/-- Membership test of one `user_roles` item in `ignored_roles`. -/
def inIgnoredRoles (item : IdOrName) (ignored : List IdOrName) : Bool :=
  match item with
  | IdOrName.id n => idIn n ignored
  | IdOrName.name s => nameIn s ignored

/-- Embedding of `Hikari.check_message_can_be_propagated`: the ordered
eligibility chain.  `memberRoles = none` models the `AttributeError` that the
role-resolution `try` block tolerates (warn and continue); `memberFound`
models the truthiness of `guild.get_member(...)`. -/
def check_message_can_be_propagated (st : PropagationState) :
    Except Reject PropagateData :=
  if !pyTruthyOptNat st.messageGuildId then
    Except.error Reject.dm
  else if st.authorId == st.botId then
    Except.error Reject.selfAuthor
  else if !st.memberFound then
    Except.error Reject.memberLookupFailed
  else if st.options.ignore_bots && st.authorIsBot then
    Except.error Reject.ignoredBot
  else if st.authorId ∈ st.options.ignored_members then
    Except.error (Reject.ignoredMember st.authorId)
  else if idIn st.messageChannelId st.options.ignored_channels ||
      nameIn st.channelName st.options.ignored_channels then
    Except.error (Reject.ignoredChannel st.messageChannelId)
  else
    match
      (match st.memberRoles with
       | some roles =>
         (match (userRoleItems st.memberRoleIds roles).find?
             (fun item => inIgnoredRoles item st.options.ignored_roles) with
          | some item => Except.error (Reject.ignoredRole item)
          | none => Except.ok ())
       | none => Except.ok () :
       Except Reject Unit) with
    | Except.error r => Except.error r
    | Except.ok _ =>
      if (st.messageGuildId.getD 0) ∈ st.options.ignored_guilds then
        Except.error (Reject.ignoredGuild (st.messageGuildId.getD 0))
      else
        let perms := get_perms st.botMemberRoles
        Except.ok
          { guild_id := st.messageGuildId
            member_name := st.authorUsername
            member_id := st.authorId
            has_perms_to_make_guild :=
              pyTruthyNat (instAttrKICK_MEMBERS perms) &&
              pyTruthyNat (instAttrBAN_MEMBERS perms) }

/-- C2: the source computes `has_perms = perms.KICK_MEMBERS and
perms.BAN_MEMBERS`, i.e. a conjunction of two *class constants* obtained by
attribute fallback, so every successful propagation check reports
`has_perms_to_make_guild = true`, whatever permissions the bot actually
holds — contradicting the claim that the flag is false when a capability is
absent. -/
theorem C2_has_perms_always_true (st : PropagationState) (d : PropagateData)
    (h : check_message_can_be_propagated st = Except.ok d) :
    d.has_perms_to_make_guild = true := by
  unfold check_message_can_be_propagated at h
  repeat' split at h
  any_goals exact Except.noConfusion h
  all_goals
    injection h with h
    rw [← h]
    rfl

/-- Handler options with empty ignore lists and plain-string templates. -/
def opts0 : Options :=
  { ignore_bots := true, ignored_members := [], ignored_channels := []
    ignored_roles := [], ignored_guilds := []
    member_kick_message := TemplateInput.str "$USERNAME was kicked"
    member_ban_message := TemplateInput.str "$USERNAME was banned"
    member_failed_kick_message := TemplateInput.str "kick of $MENTIONUSER failed"
    member_failed_ban_message := TemplateInput.str "ban of $MENTIONUSER failed" }

/-- A state that passes every eligibility check while the bot member has no
roles at all, hence effective permissions `Permissions.NONE`. -/
def st0 : PropagationState :=
  { messageGuildId := some 10, messageChannelId := 20, authorId := 4
    authorUsername := "alice", authorIsBot := false, botId := 9
    memberFound := true, memberRoleIds := [], memberRoles := some []
    channelName := "general", botMemberRoles := [], options := opts0 }

/-- Witness for C2: with zero effective permissions the check still returns
`has_perms_to_make_guild = true`. -/
theorem C2_has_perms_always_true_witness :
    check_message_can_be_propagated st0 =
      Except.ok { guild_id := some 10, member_name := "alice", member_id := 4
                  has_perms_to_make_guild := true } ∧
    get_perms st0.botMemberRoles = 0 ∧
    ({ guild_id := some 10, member_name := "alice", member_id := 4
       has_perms_to_make_guild := true } : PropagateData).has_perms_to_make_guild
      = true :=
  ⟨by rfl, by rfl, C2_has_perms_always_true st0 _ (by rfl)⟩

/-- C7: when a message passes the earlier checks (guild message, not
bot-authored, member resolvable, not an ignored bot) and its author is an
ignored member while its channel is also ignored, the chain short-circuits at
the member check: the rejection names the author, never the channel. -/
theorem C7_member_check_precedes_channel_check (st : PropagationState)
    (h1 : pyTruthyOptNat st.messageGuildId = true)
    (h2 : st.authorId ≠ st.botId)
    (h3 : st.memberFound = true)
    (h4 : (st.options.ignore_bots && st.authorIsBot) = false)
    (h5 : st.authorId ∈ st.options.ignored_members)
    (_h6 : (idIn st.messageChannelId st.options.ignored_channels ||
      nameIn st.channelName st.options.ignored_channels) = true) :
    check_message_can_be_propagated st =
      Except.error (Reject.ignoredMember st.authorId) ∧
    check_message_can_be_propagated st ≠
      Except.error (Reject.ignoredChannel st.messageChannelId) := by
  have hmain : check_message_can_be_propagated st =
      Except.error (Reject.ignoredMember st.authorId) := by
    unfold check_message_can_be_propagated
    simp [h1, h2, h3, h4, h5]
  refine ⟨hmain, ?_⟩
  rw [hmain]
  simp

/-- A state whose author is an ignored member and whose channel is an ignored
channel at the same time. -/
def st7 : PropagationState :=
  { st0 with
    options :=
      { opts0 with
        ignored_members := [4]
        ignored_channels := [IdOrName.id 20, IdOrName.name "general"] } }

/-- Witness for C7 at a message that is both ignored-member and
ignored-channel. -/
theorem C7_member_check_precedes_channel_check_witness :
    check_message_can_be_propagated st7 =
      Except.error (Reject.ignoredMember 4) ∧
    check_message_can_be_propagated st7 ≠
      Except.error (Reject.ignoredChannel 20) :=
  C7_member_check_precedes_channel_check st7 (by decide) (by decide) (by decide)
    (by decide) (by decide) (by decide)

/-! ## Punishment Executor (`punish_member`, `send_guild_log`) -/

/-- Mutable fields of the antispam `Member` dataclass that `punish_member`
touches (`_in_guild` is surfaced as `in_guild`). -/
structure PMember where
  id : Nat
  warn_count : Int
  kick_count : Int
  in_guild : Bool
  deriving DecidableEq, Repr

/-- The antispam `Guild` dataclass fields used by `send_guild_log`. -/
structure InternalGuild where
  id : Nat
  log_channel_id : Option Nat
  deriving DecidableEq, Repr

/-- The cached hikari guild fields used by `punish_member`
(`get_my_member()`'s roles feed `_get_perms`). -/
structure CachedGuild where
  name : String
  owner_id : Nat
  botMemberRoles : List Role
  deriving DecidableEq, Repr

/-- The remote calls a punishment attempt performs, in order.  Calls are
recorded when the corresponding platform operation goes through:
`notify` is a delivered `author.send`, `kickCall`/`banCall` a completed
punitive action, `guildLogSend` an attempted log-channel send (whose own
failures `send_guild_log` swallows), `setMember` the cache write. -/
inductive Effect where
  | notify (content : RenderOutput)
  | notifyTimedDelete
  | guildLogSend (channelId : Nat) (content : RenderOutput)
  | guildLogTimedDelete (channelId : Nat)
  | kickCall (authorId : Nat)
  | banCall (authorId : Nat)
  | sentMessageDelete
  | setMember (m : PMember)
  deriving Repr

/-- Outcomes of the remote calls of one punishment attempt.
`notifyDeleteResult` is the timed deletion inside the notification `try`
block (consulted only when `user_delete_after` is truthy). -/
structure PunishEnv where
  notifyResult : Except PyErr Unit
  notifyDeleteResult : Except PyErr Unit
  actResult : Except PyErr Unit
  sentDeleteResult : Except PyErr Unit
  deriving Repr

/-- Everything one `punish_member` call reads, with remote outcomes made
explicit. -/
structure PunishInput where
  ctx : SubstCtx
  options : Options
  guild : CachedGuild
  internal_guild : InternalGuild
  member : PMember
  user_message : RenderOutput
  guild_message : RenderOutput
  is_kick : Bool
  user_delete_after : Option Nat
  channel_delete_after : Option Nat
  originalChannelId : Nat
  env : PunishEnv

/-- Result of a punishment attempt: the raised exception (if any), the final
in-memory member record, and the trace of performed remote calls. -/
structure PunishResult where
  result : Except PyErr Unit
  member : PMember
  effects : List Effect
  deriving Repr

/-- Embedding of `Hikari.send_guild_log`: send to the configured log channel,
falling back to the original channel when none (or `0`) is set; optionally
schedule a timed delete.  All five hikari errors are caught inside, so the
helper never raises; its effects are the attempted sends. -/
def send_guild_log (guild : InternalGuild) (message : RenderOutput)
    (delete_after_time : Option Nat) (originalChannelId : Nat) : List Effect :=
  let channelId :=
    if !pyTruthyOptNat guild.log_channel_id then originalChannelId
    else guild.log_channel_id.getD 0
  Effect.guildLogSend channelId message ::
    (if pyTruthyOptNat delete_after_time then
      [Effect.guildLogTimedDelete channelId]
    else [])

/-- The revert performed on every denial and on a failed punitive action:
`member._in_guild = True; member.kick_count -= 1`. -/
def deniedMember (m : PMember) : PMember :=
  { m with in_guild := true, kick_count := m.kick_count - 1 }

/-- The `'kick' if is_kick else 'ban'` selector. -/
def punishKind (is_kick : Bool) : String :=
  if is_kick then "kick" else "ban"

/-- The guild-log notice sent when the private notification fails. -/
def notifyFailNotice (ctx : SubstCtx) (is_kick : Bool) : RenderOutput :=
  RenderOutput.text ("Sending a message to " ++ ctx.authorMention ++
    " about their " ++ punishKind is_kick ++ " failed.")

/-- The guild-log notice sent when the punitive action itself fails. -/
def actFailNotice (is_kick : Bool) (memberId : Nat) : RenderOutput :=
  RenderOutput.text ("An error occurred trying to " ++ punishKind is_kick ++
    ": <@" ++ toString memberId ++ ">")

/-- The configured failed-kick/failed-ban template chosen by the failure
handler. -/
def failedTemplate (inp : PunishInput) : TemplateInput :=
  if inp.is_kick then inp.options.member_failed_kick_message
  else inp.options.member_failed_ban_message

/-- The tail every non-raising path executes (`member._in_guild = True;
await self.handler.cache.set_member(member)`). -/
def punishFinish (member : PMember) (effs : List Effect) : PunishResult :=
  { result := Except.ok ()
    member := { member with in_guild := true }
    effects := effs ++ [Effect.setMember { member with in_guild := true }] }

/-- The Acting/Logging part of `punish_member`, entered after the Notifying
phase with `sent` recording whether `sent_message` is not `None`.  A failed
punitive action is handled only for `InternalServerError`: revert the member,
log the failure notice and — when the notification had been delivered — log
the rendered failed-kick/ban template and delete the notification (this last
delete is *not* guarded: its failure propagates). -/
def punishActPhase (inp : PunishInput) (sent : Bool) (effs : List Effect) :
    PunishResult :=
  match inp.env.actResult with
  | Except.ok _ =>
    punishFinish inp.member
      (effs ++
        [if inp.is_kick then Effect.kickCall inp.ctx.authorId
         else Effect.banCall inp.ctx.authorId] ++
        send_guild_log inp.internal_guild inp.guild_message
          inp.channel_delete_after inp.originalChannelId)
  | Except.error e =>
    if e = PyErr.internalServerError then
      if sent then
        match transform_message inp.ctx (failedTemplate inp)
          (deniedMember inp.member).warn_count
          (deniedMember inp.member).kick_count with
        | Except.error e2 =>
          { result := Except.error e2, member := deniedMember inp.member
            effects := effs ++
              send_guild_log inp.internal_guild
                (actFailNotice inp.is_kick inp.member.id)
                inp.channel_delete_after inp.originalChannelId }
        | Except.ok fm =>
          match inp.env.sentDeleteResult with
          | Except.ok _ =>
            punishFinish (deniedMember inp.member)
              (effs ++
                send_guild_log inp.internal_guild
                  (actFailNotice inp.is_kick inp.member.id)
                  inp.channel_delete_after inp.originalChannelId ++
                send_guild_log inp.internal_guild fm
                  inp.channel_delete_after inp.originalChannelId ++
                [Effect.sentMessageDelete])
          | Except.error e3 =>
            { result := Except.error e3, member := deniedMember inp.member
              effects := effs ++
                send_guild_log inp.internal_guild
                  (actFailNotice inp.is_kick inp.member.id)
                  inp.channel_delete_after inp.originalChannelId ++
                send_guild_log inp.internal_guild fm
                  inp.channel_delete_after inp.originalChannelId }
      else
        punishFinish (deniedMember inp.member)
          (effs ++
            send_guild_log inp.internal_guild
              (actFailNotice inp.is_kick inp.member.id)
              inp.channel_delete_after inp.originalChannelId)
    else { result := Except.error e, member := inp.member, effects := effs }

/-- Embedding of `Hikari.punish_member`.  The first two authorization guards
test Python `not perms.KICK_MEMBERS` / `not perms.BAN_MEMBERS`, attribute
fallbacks to the class constants (see `instAttrKICK_MEMBERS`); a denial
reverts the member in memory and raises without reaching the final cache
write.  The Notifying phase handles only `InternalServerError`; any other
notification error propagates immediately. -/
def punish_member (inp : PunishInput) : PunishResult :=
  if (!pyTruthyNat (instAttrKICK_MEMBERS (get_perms inp.guild.botMemberRoles)))
      && inp.is_kick then
    { result := Except.error (PyErr.missingGuildPermissions
        ("I need kick perms to punish someone in " ++ inp.guild.name))
      member := deniedMember inp.member, effects := [] }
  else if (!pyTruthyNat (instAttrBAN_MEMBERS (get_perms inp.guild.botMemberRoles)))
      && !inp.is_kick then
    { result := Except.error (PyErr.missingGuildPermissions
        ("I need ban perms to punish someone in " ++ inp.guild.name))
      member := deniedMember inp.member, effects := [] }
  else if inp.guild.owner_id == inp.member.id then
    { result := Except.error (PyErr.missingGuildPermissions
        ("I cannot punish " ++ inp.ctx.authorUsername ++ "(" ++
          toString inp.ctx.authorId ++ ") because they own this guild. (" ++
          inp.guild.name ++ ")"))
      member := deniedMember inp.member, effects := [] }
  else
    match inp.env.notifyResult with
    | Except.ok _ =>
      if pyTruthyOptNat inp.user_delete_after then
        match inp.env.notifyDeleteResult with
        | Except.ok _ =>
          punishActPhase inp true
            [Effect.notify inp.user_message, Effect.notifyTimedDelete]
        | Except.error e =>
          if e = PyErr.internalServerError then
            punishActPhase inp true
              (Effect.notify inp.user_message ::
                send_guild_log inp.internal_guild
                  (notifyFailNotice inp.ctx inp.is_kick)
                  inp.channel_delete_after inp.originalChannelId)
          else { result := Except.error e, member := inp.member
                 effects := [Effect.notify inp.user_message] }
      else punishActPhase inp true [Effect.notify inp.user_message]
    | Except.error e =>
      if e = PyErr.internalServerError then
        punishActPhase inp false
          (send_guild_log inp.internal_guild
            (notifyFailNotice inp.ctx inp.is_kick)
            inp.channel_delete_after inp.originalChannelId)
      else { result := Except.error e, member := inp.member, effects := [] }

/-- The disjunction of `punish_member`'s three denial guards. -/
def isDeniedInput (inp : PunishInput) : Bool :=
  ((!pyTruthyNat (instAttrKICK_MEMBERS (get_perms inp.guild.botMemberRoles)))
      && inp.is_kick) ||
  ((!pyTruthyNat (instAttrBAN_MEMBERS (get_perms inp.guild.botMemberRoles)))
      && !inp.is_kick) ||
  (inp.guild.owner_id == inp.member.id)

/-- Recognises the cache-write effect. -/
def isSetMemberEff : Effect → Bool
  | Effect.setMember _ => true
  | _ => false

/-- Recognises a completed ban call. -/
def isBanCallEff : Effect → Bool
  | Effect.banCall _ => true
  | _ => false

/-- The messages sent to the guild log, in order. -/
def guildLogContents (effs : List Effect) : List RenderOutput :=
  effs.filterMap (fun e =>
    match e with
    | Effect.guildLogSend _ c => some c
    | _ => none)

/-- The guild-log helper performs no cache write. -/
theorem send_guild_log_no_setMember (g : InternalGuild) (msg : RenderOutput)
    (d : Option Nat) (ch : Nat) :
    (send_guild_log g msg d ch).filter isSetMemberEff = [] := by
  unfold send_guild_log
  by_cases h : pyTruthyOptNat d = true <;> simp [h, isSetMemberEff]

/-- The guild-log helper sends exactly its message. -/
theorem send_guild_log_contents (g : InternalGuild) (msg : RenderOutput)
    (d : Option Nat) (ch : Nat) :
    guildLogContents (send_guild_log g msg d ch) = [msg] := by
  unfold send_guild_log guildLogContents
  by_cases h : pyTruthyOptNat d = true <;> simp [h]

/-- Member record before a punishment attempt: the scoring stage has already
performed its optimistic pre-increment (`kick_count = 3`). -/
def member0 : PMember :=
  { id := 4, warn_count := 1, kick_count := 3, in_guild := false }

/-- Internal guild with a configured log channel. -/
def iguild0 : InternalGuild := { id := 10, log_channel_id := some 30 }

/-- Cached guild whose bot member has no roles (no permissions at all) and
whose owner is not the target member. -/
def cguild0 : CachedGuild := { name := "g", owner_id := 999, botMemberRoles := [] }

/-- All remote calls succeed. -/
def envAllOk : PunishEnv :=
  { notifyResult := Except.ok (), notifyDeleteResult := Except.ok ()
    actResult := Except.ok (), sentDeleteResult := Except.ok () }

/-- A ban attempt with every remote call succeeding, by a bot that holds no
permissions whatsoever. -/
def baseInp : PunishInput :=
  { ctx := ctx0, options := opts0, guild := cguild0, internal_guild := iguild0
    member := member0, user_message := RenderOutput.text "you are banned"
    guild_message := RenderOutput.text "banned alice", is_kick := false
    user_delete_after := none, channel_delete_after := none
    originalChannelId := 20, env := envAllOk }

/-- C5: the claim says a ban attempt by a bot lacking ban capability fails
with `MissingAuthority`, reverts `kick_count` and attempts nothing.  The
guard `not perms.BAN_MEMBERS` tests the truthy class constant (attribute
fallback), so it can never fire: with zero effective permissions the attempt
proceeds, executes the ban, completes without error and leaves `kick_count`
untouched. -/
theorem C5_capability_denial_never_fires :
    get_perms baseInp.guild.botMemberRoles &&& BAN_MEMBERS = 0 ∧
    (punish_member baseInp).result = Except.ok () ∧
    (punish_member baseInp).member.kick_count = member0.kick_count ∧
    (punish_member baseInp).effects.any isBanCallEff = true := by
  exact ⟨by decide, by rfl, by decide, by rfl⟩

/-- C10: when the private notification fails with any error other than
`InternalServerError` and no denial guard fired, `punish_member` propagates
the error: no punitive action, no guild-log message, the member record
untouched (counters not reverted) and no cache write. -/
theorem C10_notify_error_propagates (inp : PunishInput) (e : PyErr)
    (hden : isDeniedInput inp = false)
    (he : inp.env.notifyResult = Except.error e)
    (hne : e ≠ PyErr.internalServerError) :
    punish_member inp =
      { result := Except.error e, member := inp.member, effects := [] } := by
  unfold isDeniedInput at hden
  simp only [Bool.or_eq_false_iff] at hden
  obtain ⟨⟨h1, h2⟩, h3⟩ := hden
  unfold punish_member
  rw [if_neg (by simp [h1]), if_neg (by simp [h2]), if_neg (by simp [h3]), he]
  dsimp only
  rw [if_neg hne]

/-- A punishment attempt whose private notification fails with
`ForbiddenError` (the member has direct messages disabled). -/
def inp10 : PunishInput :=
  { baseInp with env := { envAllOk with notifyResult := Except.error PyErr.forbiddenError } }

/-- Witness for C10 at a `ForbiddenError` notification failure. -/
theorem C10_notify_error_propagates_witness :
    isDeniedInput inp10 = false ∧
    punish_member inp10 =
      { result := Except.error PyErr.forbiddenError, member := inp10.member
        effects := [] } :=
  ⟨by decide, C10_notify_error_propagates inp10 PyErr.forbiddenError (by decide)
    (by rfl) (by decide)⟩

/-- A punitive ban attempt against the guild owner (owner denial, the only
reachable denial guard). -/
def inp3 : PunishInput :=
  { baseInp with guild := { name := "g", owner_id := 4, botMemberRoles := [] } }

/-- C3 counterexample: on the `Denied` path the member is reverted in memory
(`kick_count` decremented, `is_in_guild = true`) but `MissingGuildPermissions`
is raised *before* the final cache write, so `set_member` is never called —
contradicting the claim that every terminal path, including `Denied`,
persists the record exactly once. -/
theorem C3_counterexample_denied_path_no_write :
    (punish_member inp3).result = Except.error (PyErr.missingGuildPermissions
      "I cannot punish alice(4) because they own this guild. (g)") ∧
    (punish_member inp3).member =
      { id := 4, warn_count := 1, kick_count := 2, in_guild := true } ∧
    (punish_member inp3).effects.filter isSetMemberEff = [] := by
  exact ⟨by rfl, by rfl, by rfl⟩

/-- The punitive-call element of a success trace is never a cache write. -/
theorem isSetMemberEff_punitive (b : Bool) (a : Nat) :
    isSetMemberEff (if b then Effect.kickCall a else Effect.banCall a) = false := by
  cases b <;> rfl

/-- When the Acting/Logging phase returns normally, its trace is the incoming
trace followed by exactly one cache write of the final member, whose
`in_guild` flag is set. -/
theorem punishActPhase_ok_eq (inp : PunishInput) (sent : Bool)
    (effs : List Effect) (mem : PMember) (effl : List Effect)
    (h : punishActPhase inp sent effs =
      { result := Except.ok (), member := mem, effects := effl }) :
    effl.filter isSetMemberEff =
      effs.filter isSetMemberEff ++ [Effect.setMember mem] ∧
    mem.in_guild = true := by
  unfold punishActPhase punishFinish at h
  repeat' split at h
  all_goals injection h with hres hmem heffs
  all_goals first
    | exact Except.noConfusion hres
    | (subst hmem
       subst heffs
       refine ⟨?_, rfl⟩
       simp [List.filter_append, List.filter_cons, isSetMemberEff,
         send_guild_log_no_setMember, isSetMemberEff_punitive])

/-- C3 (amended): the final member record is persisted through `set_member`
exactly once, with `is_in_guild = true`, on every attempt that returns
normally (the success and partial-failure paths); on the `Denied` path the
attempt raises and performs no cache write at all (the revert is in-memory
only). -/
theorem C3_set_member_exactly_once (inp : PunishInput) :
    ((punish_member inp).result = Except.ok () →
      (punish_member inp).effects.filter isSetMemberEff =
        [Effect.setMember ((punish_member inp).member)] ∧
      ((punish_member inp).member).in_guild = true) ∧
    (isDeniedInput inp = true →
      (punish_member inp).result ≠ Except.ok () ∧
      (punish_member inp).effects.filter isSetMemberEff = []) := by
  rcases hpr : punish_member inp with ⟨res, mem, effs⟩
  dsimp only
  constructor
  · intro hok
    subst hok
    unfold punish_member at hpr
    repeat' split at hpr
    all_goals first
      | (injection hpr with hres hmem heffs
         exact Except.noConfusion hres)
      | (obtain ⟨hf, hg⟩ := punishActPhase_ok_eq _ _ _ _ _ hpr
         refine ⟨?_, hg⟩
         rw [hf]
         simp [isSetMemberEff, send_guild_log_no_setMember, List.filter_cons,
           List.filter_append])
  · intro hden
    unfold punish_member at hpr
    repeat' split at hpr
    all_goals first
      | (injection hpr with hres hmem heffs
         subst hres
         subst heffs
         exact ⟨fun hc => Except.noConfusion hc, rfl⟩)
      | (exfalso
         unfold isDeniedInput at hden
         simp only [Bool.or_eq_true] at hden
         rcases hden with (h | h) | h <;> exact absurd h (by assumption))

/-- Witness for C3 at a successful ban (one cache write) and at the owner
denial (no cache write). -/
theorem C3_set_member_exactly_once_witness :
    ((punish_member baseInp).result = Except.ok () ∧
      (punish_member baseInp).effects.filter isSetMemberEff =
        [Effect.setMember ((punish_member baseInp).member)] ∧
      ((punish_member baseInp).member).in_guild = true) ∧
    (isDeniedInput inp3 = true ∧
      (punish_member inp3).result ≠ Except.ok () ∧
      (punish_member inp3).effects.filter isSetMemberEff = []) :=
  ⟨⟨by rfl, ((C3_set_member_exactly_once baseInp).1 (by rfl)).1,
    ((C3_set_member_exactly_once baseInp).1 (by rfl)).2⟩,
   ⟨by decide, ((C3_set_member_exactly_once inp3).2 (by decide)).1,
    ((C3_set_member_exactly_once inp3).2 (by decide)).2⟩⟩

/-- Distributivity of the guild-log projection over traces. -/
theorem guildLogContents_append (a b : List Effect) :
    guildLogContents (a ++ b) = guildLogContents a ++ guildLogContents b :=
  List.filterMap_append ..

/-- A delivered notification contributes nothing to the guild log. -/
theorem guildLogContents_notify (m : RenderOutput) (t : List Effect) :
    guildLogContents (Effect.notify m :: t) = guildLogContents t := rfl

/-- A notification retraction contributes nothing to the guild log. -/
theorem guildLogContents_sentDelete (t : List Effect) :
    guildLogContents (Effect.sentMessageDelete :: t) = guildLogContents t := rfl

/-- A cache write contributes nothing to the guild log. -/
theorem guildLogContents_setMember (m : PMember) (t : List Effect) :
    guildLogContents (Effect.setMember m :: t) = guildLogContents t := rfl

/-- The empty trace has an empty guild log. -/
theorem guildLogContents_nil : guildLogContents [] = [] := rfl

/-- The Notifying-phase effect prefix of an attempt whose notification was
delivered and which reaches the Acting state: the delivered notification,
plus either the completed timed delete or — when that timed delete failed
with an internal-server-error — the delivery-failure notice logged by the
`except` handler. -/
def notifyPrefix (inp : PunishInput) : List Effect :=
  if pyTruthyOptNat inp.user_delete_after then
    match inp.env.notifyDeleteResult with
    | Except.error PyErr.internalServerError =>
      Effect.notify inp.user_message ::
        send_guild_log inp.internal_guild (notifyFailNotice inp.ctx inp.is_kick)
          inp.channel_delete_after inp.originalChannelId
    | _ => [Effect.notify inp.user_message, Effect.notifyTimedDelete]
  else [Effect.notify inp.user_message]

/-- The guild-log messages already sent by the Notifying phase when the
Acting state is reached with the notification delivered: none, unless the
timed delete of the notification failed with an internal-server-error, in
which case the delivery-failure notice was logged first. -/
def notifyPhaseLog (inp : PunishInput) : List RenderOutput :=
  if pyTruthyOptNat inp.user_delete_after then
    match inp.env.notifyDeleteResult with
    | Except.error PyErr.internalServerError =>
      [notifyFailNotice inp.ctx inp.is_kick]
    | _ => []
  else []

/-- The Notifying-phase prefix logs exactly `notifyPhaseLog`. -/
theorem guildLogContents_notifyPrefix (inp : PunishInput) :
    guildLogContents (notifyPrefix inp) = notifyPhaseLog inp := by
  unfold notifyPrefix notifyPhaseLog
  by_cases hud : pyTruthyOptNat inp.user_delete_after = true
  · rw [if_pos hud, if_pos hud]
    rcases hnd : inp.env.notifyDeleteResult with e | u
    · cases e <;> first
        | rfl
        | (show guildLogContents (Effect.notify inp.user_message ::
              send_guild_log inp.internal_guild
                (notifyFailNotice inp.ctx inp.is_kick)
                inp.channel_delete_after inp.originalChannelId) =
            [notifyFailNotice inp.ctx inp.is_kick]
           rw [guildLogContents_notify, send_guild_log_contents])
    · rfl
  · rw [if_neg hud, if_neg hud]
    rfl

/-- The Notifying-phase prefix performs no cache write. -/
theorem notifyPrefix_no_setMember (inp : PunishInput) :
    (notifyPrefix inp).filter isSetMemberEff = [] := by
  unfold notifyPrefix
  by_cases hud : pyTruthyOptNat inp.user_delete_after = true
  · rw [if_pos hud]
    rcases hnd : inp.env.notifyDeleteResult with e | u
    · cases e <;> first
        | rfl
        | (show (Effect.notify inp.user_message ::
              send_guild_log inp.internal_guild
                (notifyFailNotice inp.ctx inp.is_kick)
                inp.channel_delete_after inp.originalChannelId).filter
              isSetMemberEff = []
           simp [List.filter_cons, isSetMemberEff, send_guild_log_no_setMember])
    · rfl
  · rw [if_neg hud]
    rfl

/-- Under denied-guards false, a delivered notification, and a timed delete
that did not abort the attempt, `punish_member` reaches the Acting state with
`sent_message` set and the Notifying-phase trace as prefix. -/
theorem punish_member_reaches_acting (inp : PunishInput)
    (hden : isDeniedInput inp = false)
    (hnotify : inp.env.notifyResult = Except.ok ())
    (hreach : pyTruthyOptNat inp.user_delete_after = true →
      inp.env.notifyDeleteResult = Except.ok () ∨
      inp.env.notifyDeleteResult = Except.error PyErr.internalServerError) :
    punish_member inp = punishActPhase inp true (notifyPrefix inp) := by
  unfold isDeniedInput at hden
  simp only [Bool.or_eq_false_iff] at hden
  obtain ⟨⟨h1, h2⟩, h3⟩ := hden
  unfold punish_member notifyPrefix
  rw [if_neg (by simp [h1]), if_neg (by simp [h2]), if_neg (by simp [h3]),
    hnotify]
  dsimp only
  by_cases hud : pyTruthyOptNat inp.user_delete_after = true
  · rw [if_pos hud, if_pos hud]
    rcases hreach hud with hok | hise
    · rw [hok]
    · rw [hise]
      rfl
  · rw [if_neg hud, if_neg hud]

/-- Acting failed with an internal-server-error after a delivered
notification, the failed-template rendered and the retraction delete
succeeded: the partial-failure trace ends with the single cache write. -/
theorem punishActPhase_ise_deleteOk (inp : PunishInput) (effs : List Effect)
    (fm : RenderOutput)
    (hact : inp.env.actResult = Except.error PyErr.internalServerError)
    (hfm : transform_message inp.ctx (failedTemplate inp)
      (deniedMember inp.member).warn_count (deniedMember inp.member).kick_count =
      Except.ok fm)
    (hsd : inp.env.sentDeleteResult = Except.ok ()) :
    punishActPhase inp true effs =
      punishFinish (deniedMember inp.member)
        (effs ++
          send_guild_log inp.internal_guild
            (actFailNotice inp.is_kick inp.member.id)
            inp.channel_delete_after inp.originalChannelId ++
          send_guild_log inp.internal_guild fm
            inp.channel_delete_after inp.originalChannelId ++
          [Effect.sentMessageDelete]) := by
  unfold punishActPhase
  rw [hact]
  dsimp only
  rw [if_pos rfl, hfm]
  dsimp only
  rw [hsd]
  rfl

/-- As `punishActPhase_ise_deleteOk`, but the retraction delete fails: its
error propagates and no cache write happens. -/
theorem punishActPhase_ise_deleteErr (inp : PunishInput) (effs : List Effect)
    (fm : RenderOutput) (e : PyErr)
    (hact : inp.env.actResult = Except.error PyErr.internalServerError)
    (hfm : transform_message inp.ctx (failedTemplate inp)
      (deniedMember inp.member).warn_count (deniedMember inp.member).kick_count =
      Except.ok fm)
    (hsd : inp.env.sentDeleteResult = Except.error e) :
    punishActPhase inp true effs =
      { result := Except.error e, member := deniedMember inp.member
        effects := effs ++
          send_guild_log inp.internal_guild
            (actFailNotice inp.is_kick inp.member.id)
            inp.channel_delete_after inp.originalChannelId ++
          send_guild_log inp.internal_guild fm
            inp.channel_delete_after inp.originalChannelId } := by
  unfold punishActPhase
  rw [hact]
  dsimp only
  rw [if_pos rfl, hfm]
  dsimp only
  rw [hsd]
  rfl

/-- As above, but rendering the failed-kick/ban template itself raises: only
the action-failure notice was logged, the error propagates, no cache
write. -/
theorem punishActPhase_ise_templateErr (inp : PunishInput) (effs : List Effect)
    (e2 : PyErr)
    (hact : inp.env.actResult = Except.error PyErr.internalServerError)
    (hft : transform_message inp.ctx (failedTemplate inp)
      (deniedMember inp.member).warn_count (deniedMember inp.member).kick_count =
      Except.error e2) :
    punishActPhase inp true effs =
      { result := Except.error e2, member := deniedMember inp.member
        effects := effs ++
          send_guild_log inp.internal_guild
            (actFailNotice inp.is_kick inp.member.id)
            inp.channel_delete_after inp.originalChannelId } := by
  unfold punishActPhase
  rw [hact]
  dsimp only
  rw [if_pos rfl, hft]
  rfl

/-- C4 (amended): for every attempt in which the private notification was
delivered, the attempt reached the punitive action (no timed-delete error
other than internal-server-error aborted it) and the kick/ban failed with an
internal-server-error: `kick_count` drops by exactly one and `is_in_guild` is
set; the guild log receives the action-failure notice and then, when the
configured failed-kick/ban template renders, the rendered notice — exactly
two messages, preceded by the delivery-failure notice when the notification's
timed delete had failed with an internal-server-error; a template that fails
to render leaves only the action-failure notice and its error propagates.
The retraction delete of the notification is *not* best-effort: when it (or
the render) fails, the error propagates out of `punish_member` and the member
record is not persisted; otherwise the record is persisted exactly once. -/
theorem C4_partial_failure_behaviour (inp : PunishInput)
    (hden : isDeniedInput inp = false)
    (hnotify : inp.env.notifyResult = Except.ok ())
    (hreach : pyTruthyOptNat inp.user_delete_after = true →
      inp.env.notifyDeleteResult = Except.ok () ∨
      inp.env.notifyDeleteResult = Except.error PyErr.internalServerError)
    (hact : inp.env.actResult = Except.error PyErr.internalServerError) :
    (punish_member inp).member =
      { id := inp.member.id, warn_count := inp.member.warn_count
        kick_count := inp.member.kick_count - 1, in_guild := true } ∧
    (∀ fm, transform_message inp.ctx (failedTemplate inp)
        inp.member.warn_count (inp.member.kick_count - 1) = Except.ok fm →
      (inp.env.sentDeleteResult = Except.ok () →
        (punish_member inp).result = Except.ok () ∧
        guildLogContents (punish_member inp).effects =
          notifyPhaseLog inp ++ [actFailNotice inp.is_kick inp.member.id, fm] ∧
        Effect.sentMessageDelete ∈ (punish_member inp).effects ∧
        (punish_member inp).effects.filter isSetMemberEff =
          [Effect.setMember ((punish_member inp).member)]) ∧
      (∀ e, inp.env.sentDeleteResult = Except.error e →
        (punish_member inp).result = Except.error e ∧
        guildLogContents (punish_member inp).effects =
          notifyPhaseLog inp ++ [actFailNotice inp.is_kick inp.member.id, fm] ∧
        (punish_member inp).effects.filter isSetMemberEff = [])) ∧
    (∀ e2, transform_message inp.ctx (failedTemplate inp)
        inp.member.warn_count (inp.member.kick_count - 1) = Except.error e2 →
      (punish_member inp).result = Except.error e2 ∧
      guildLogContents (punish_member inp).effects =
        notifyPhaseLog inp ++ [actFailNotice inp.is_kick inp.member.id] ∧
      (punish_member inp).effects.filter isSetMemberEff = []) := by
  have hstep := punish_member_reaches_acting inp hden hnotify hreach
  refine ⟨?_, ?_, ?_⟩
  · rcases hft : transform_message inp.ctx (failedTemplate inp)
        inp.member.warn_count (inp.member.kick_count - 1) with e2 | fm
    · rw [hstep, punishActPhase_ise_templateErr inp (notifyPrefix inp) e2 hact hft]
      rfl
    · rcases hsd : inp.env.sentDeleteResult with e | u
      · rw [hstep,
          punishActPhase_ise_deleteErr inp (notifyPrefix inp) fm e hact hft hsd]
        rfl
      · cases u
        rw [hstep,
          punishActPhase_ise_deleteOk inp (notifyPrefix inp) fm hact hft hsd]
        rfl
  · intro fm hfm
    constructor
    · intro hsd
      rw [hstep, punishActPhase_ise_deleteOk inp (notifyPrefix inp) fm hact hfm hsd]
      unfold punishFinish
      dsimp only
      refine ⟨rfl, ?_, ?_, ?_⟩
      · simp [guildLogContents_append, send_guild_log_contents,
          guildLogContents_notifyPrefix, guildLogContents_sentDelete,
          guildLogContents_setMember, guildLogContents_nil,
          guildLogContents_notify]
      · simp
      · simp [List.filter_append, List.filter_cons, isSetMemberEff,
          send_guild_log_no_setMember, notifyPrefix_no_setMember]
    · intro e hsd
      rw [hstep, punishActPhase_ise_deleteErr inp (notifyPrefix inp) fm e hact hfm hsd]
      dsimp only
      refine ⟨rfl, ?_, ?_⟩
      · simp [guildLogContents_append, send_guild_log_contents,
          guildLogContents_notifyPrefix]
      · simp [List.filter_append, isSetMemberEff, send_guild_log_no_setMember,
          notifyPrefix_no_setMember]
  · intro e2 hft
    rw [hstep, punishActPhase_ise_templateErr inp (notifyPrefix inp) e2 hact hft]
    dsimp only
    refine ⟨rfl, ?_, ?_⟩
    · simp [guildLogContents_append, send_guild_log_contents,
        guildLogContents_notifyPrefix]
    · simp [List.filter_append, isSetMemberEff, send_guild_log_no_setMember,
        notifyPrefix_no_setMember]

/-- Ban attempt whose notification succeeds, whose ban fails with an
internal-server-error and whose retraction delete succeeds. -/
def inp4 : PunishInput :=
  { baseInp with
    env := { envAllOk with actResult := Except.error PyErr.internalServerError } }

/-- Same scenario, but the retraction delete itself fails with a
`NotFoundError`. -/
def inp4bad : PunishInput :=
  { baseInp with
    env :=
      { envAllOk with
        actResult := Except.error PyErr.internalServerError
        sentDeleteResult := Except.error PyErr.notFoundError } }

/-- Failed-ban scenario with a timed notification delete that itself failed
with an internal-server-error after delivery: the delivery-failure notice
precedes the two acting-failure messages in the guild log. -/
def inp4c : PunishInput :=
  { baseInp with
    user_delete_after := some 5
    env :=
      { envAllOk with
        notifyDeleteResult := Except.error PyErr.internalServerError
        actResult := Except.error PyErr.internalServerError } }

/-- C4 counterexample: the claim calls the retraction of the notification a
"best-effort delete whose failures are swallowed", but the call
`await sent_message.delete()` in the failure handler is unguarded: when it
fails with `NotFoundError` the error propagates out of `punish_member` and
the final cache write is skipped. -/
theorem C4_counterexample_delete_failure_propagates :
    (punish_member inp4bad).result = Except.error PyErr.notFoundError ∧
    (punish_member inp4bad).effects.filter isSetMemberEff = [] := by
  exact ⟨by rfl, by rfl⟩

/-- Witness for C4 at two concrete failed bans: one with no timed delete
(guild log gets exactly the two acting-failure messages) and one whose timed
notification delete failed with an internal-server-error (the
delivery-failure notice precedes them). -/
theorem C4_partial_failure_behaviour_witness :
    ((punish_member inp4).result = Except.ok () ∧
      (punish_member inp4).member =
        { id := inp4.member.id, warn_count := inp4.member.warn_count
          kick_count := inp4.member.kick_count - 1, in_guild := true } ∧
      notifyPhaseLog inp4 = [] ∧
      guildLogContents (punish_member inp4).effects =
        notifyPhaseLog inp4 ++
          [actFailNotice inp4.is_kick inp4.member.id,
           RenderOutput.text (substitute_args inp4.ctx "ban of $MENTIONUSER failed"
             inp4.member.warn_count (inp4.member.kick_count - 1))] ∧
      Effect.sentMessageDelete ∈ (punish_member inp4).effects ∧
      (punish_member inp4).effects.filter isSetMemberEff =
        [Effect.setMember ((punish_member inp4).member)]) ∧
    ((punish_member inp4c).result = Except.ok () ∧
      notifyPhaseLog inp4c = [notifyFailNotice inp4c.ctx inp4c.is_kick] ∧
      guildLogContents (punish_member inp4c).effects =
        notifyPhaseLog inp4c ++
          [actFailNotice inp4c.is_kick inp4c.member.id,
           RenderOutput.text (substitute_args inp4c.ctx "ban of $MENTIONUSER failed"
             inp4c.member.warn_count (inp4c.member.kick_count - 1))]) := by
  have H4 := C4_partial_failure_behaviour inp4 (by decide) (by rfl)
    (fun _ => Or.inl (by rfl)) (by rfl)
  have h4 := (H4.2.1
    (RenderOutput.text (substitute_args inp4.ctx "ban of $MENTIONUSER failed"
      inp4.member.warn_count (inp4.member.kick_count - 1))) (by rfl)).1 (by rfl)
  have H4c := C4_partial_failure_behaviour inp4c (by decide) (by rfl)
    (fun _ => Or.inr (by rfl)) (by rfl)
  have h4c := (H4c.2.1
    (RenderOutput.text (substitute_args inp4c.ctx "ban of $MENTIONUSER failed"
      inp4c.member.warn_count (inp4c.member.kick_count - 1))) (by rfl)).1 (by rfl)
  exact ⟨⟨h4.1, H4.1, by rfl, h4.2.1, h4.2.2.1, h4.2.2.2⟩,
    ⟨h4c.1, by rfl, h4c.2.1⟩⟩

/-! ## Cleanup Sweeper (`delete_member_messages`, `delete_message`) -/

/-- A flagged-message reference held in the member's record. -/
structure FlaggedMessage where
  id : Nat
  channel_id : Nat
  is_duplicate : Bool
  deriving DecidableEq, Repr

/-- Platform outcomes the sweep observes: result of fetching a channel,
fetching a message, and deleting a message. -/
structure SweepEnv where
  fetchChannelResult : Nat → Except PyErr Unit
  fetchMessageResult : Nat → Except PyErr Unit
  deleteResult : Nat → Except PyErr Unit

/-- Remote calls performed by the sweep. -/
inductive SweepEffect where
  | fetchChannel (channelId : Nat)
  | deleted (messageId : Nat)
  | deleteFailedLogged (messageId : Nat)
  deriving DecidableEq, Repr

/-- Embedding of `Hikari.delete_message`: delete, swallowing (and logging)
`NotFoundError` and `ForbiddenError`; any other error propagates. -/
def delete_message (env : SweepEnv) (messageId : Nat) :
    Except PyErr (List SweepEffect) :=
  match env.deleteResult messageId with
  | Except.ok _ => Except.ok [SweepEffect.deleted messageId]
  | Except.error e =>
    if e = PyErr.notFoundError ∨ e = PyErr.forbiddenError then
      Except.ok [SweepEffect.deleteFailedLogged messageId]
    else Except.error e

/-- The per-sweep channel cache step: a cached channel id costs nothing; an
uncached one is fetched (this fetch is *not* guarded by the `try`) and
cached. -/
def channelStep (env : SweepEnv) (channels : List Nat) (cid : Nat) :
    Except PyErr (List SweepEffect × List Nat) :=
  if cid ∈ channels then Except.ok ([], channels)
  else
    match env.fetchChannelResult cid with
    | Except.ok _ => Except.ok ([SweepEffect.fetchChannel cid], channels ++ [cid])
    | Except.error e => Except.error e

/-- The guarded fetch-then-delete of one duplicate message: a `NotFoundError`
on the fetch is caught by the surrounding `try` (`continue`); the delete is
handled by `delete_message`. -/
def messageStep (env : SweepEnv) (mid : Nat) : Except PyErr (List SweepEffect) :=
  match env.fetchMessageResult mid with
  | Except.ok _ => delete_message env mid
  | Except.error e =>
    if e = PyErr.notFoundError then Except.ok []
    else Except.error e

/-- The sweep loop of `delete_member_messages` over the member's flagged
messages, carrying the channel cache. -/
def sweepAux (env : SweepEnv) :
    List FlaggedMessage → List Nat → Except PyErr (List SweepEffect)
  | [], _ => Except.ok []
  | msg :: rest, channels =>
    if msg.is_duplicate then
      match channelStep env channels msg.channel_id with
      | Except.error e => Except.error e
      | Except.ok (effs, channels2) =>
        match messageStep env msg.id with
        | Except.error e => Except.error e
        | Except.ok effs2 =>
          match sweepAux env rest channels2 with
          | Except.error e => Except.error e
          | Except.ok effs3 => Except.ok (effs ++ effs2 ++ effs3)
    else sweepAux env rest channels

/-- Embedding of `Hikari.delete_member_messages`: sweep the member's flagged
messages with an initially empty channel cache. -/
def delete_member_messages (env : SweepEnv) (messages : List FlaggedMessage) :
    Except PyErr (List SweepEffect) :=
  sweepAux env messages []

/-- The effects of a sweep that completed. -/
def sweepEffects : Except PyErr (List SweepEffect) → List SweepEffect
  | Except.ok effs => effs
  | Except.error _ => []

/-- The channel step succeeds whenever the channel fetch does. -/
theorem channelStep_isOk (env : SweepEnv) (channels : List Nat) (cid : Nat)
    (h : env.fetchChannelResult cid = Except.ok ()) :
    ∃ p, channelStep env channels cid = Except.ok p := by
  unfold channelStep
  by_cases hin : cid ∈ channels
  · exact ⟨([], channels), by rw [if_pos hin]⟩
  · exact ⟨([SweepEffect.fetchChannel cid], channels ++ [cid]),
      by rw [if_neg hin, h]⟩

/-- When the fetch and the delete each either succeed or report not-found,
the message step succeeds, and it records the deletion whenever both
succeeded. -/
theorem messageStep_isOk (env : SweepEnv) (mid : Nat)
    (hf : env.fetchMessageResult mid = Except.ok () ∨
      env.fetchMessageResult mid = Except.error PyErr.notFoundError)
    (hd : env.deleteResult mid = Except.ok () ∨
      env.deleteResult mid = Except.error PyErr.notFoundError) :
    ∃ effs, messageStep env mid = Except.ok effs ∧
      (env.fetchMessageResult mid = Except.ok () →
       env.deleteResult mid = Except.ok () →
       SweepEffect.deleted mid ∈ effs) := by
  unfold messageStep delete_message
  rcases hf with hf | hf
  · rw [hf]
    rcases hd with hd | hd
    · rw [hd]
      exact ⟨[SweepEffect.deleted mid], rfl, fun _ _ => List.mem_singleton.mpr rfl⟩
    · rw [hd]
      refine ⟨[SweepEffect.deleteFailedLogged mid], by rfl, fun _ hdo => ?_⟩
      exact Except.noConfusion hdo
  · rw [hf]
    refine ⟨[], by rfl, fun hfo _ => ?_⟩
    exact Except.noConfusion hfo

/-- Whether the sweep completed without raising. -/
def sweepOk : Except PyErr (List SweepEffect) → Bool
  | Except.ok _ => true
  | Except.error _ => false

/-- Sweep loop invariant: with reachable channels and message outcomes that
are each success-or-not-found, the loop processes the whole list without
raising and records a deletion for every duplicate whose fetch and delete
both succeeded. -/
theorem sweepAux_completes (env : SweepEnv) :
    ∀ (msgs : List FlaggedMessage) (channels : List Nat),
    (∀ m ∈ msgs, m.is_duplicate = true →
      env.fetchChannelResult m.channel_id = Except.ok ()) →
    (∀ m ∈ msgs, m.is_duplicate = true →
      env.fetchMessageResult m.id = Except.ok () ∨
      env.fetchMessageResult m.id = Except.error PyErr.notFoundError) →
    (∀ m ∈ msgs, m.is_duplicate = true →
      env.deleteResult m.id = Except.ok () ∨
      env.deleteResult m.id = Except.error PyErr.notFoundError) →
    sweepOk (sweepAux env msgs channels) = true ∧
    ∀ m ∈ msgs, m.is_duplicate = true →
      env.fetchMessageResult m.id = Except.ok () →
      env.deleteResult m.id = Except.ok () →
      SweepEffect.deleted m.id ∈ sweepEffects (sweepAux env msgs channels) := by
  intro msgs
  induction msgs with
  | nil =>
    intro channels _ _ _
    exact ⟨rfl, fun m hm => absurd hm (List.not_mem_nil m)⟩
  | cons msg rest ih =>
    intro channels hch hfm hdm
    have hchT := fun m hm => hch m (List.mem_cons_of_mem _ hm)
    have hfmT := fun m hm => hfm m (List.mem_cons_of_mem _ hm)
    have hdmT := fun m hm => hdm m (List.mem_cons_of_mem _ hm)
    by_cases hdup : msg.is_duplicate = true
    · obtain ⟨⟨effsC, channels2⟩, hcs⟩ :=
        channelStep_isOk env channels msg.channel_id
          (hch msg (List.mem_cons_self _ _) hdup)
      obtain ⟨effs2, hms, hmem⟩ :=
        messageStep_isOk env msg.id (hfm msg (List.mem_cons_self _ _) hdup)
          (hdm msg (List.mem_cons_self _ _) hdup)
      obtain ⟨ihok, ihmem⟩ := ih channels2 hchT hfmT hdmT
      have hred : sweepAux env (msg :: rest) channels =
          match sweepAux env rest channels2 with
          | Except.error e => Except.error e
          | Except.ok effs3 => Except.ok (effsC ++ effs2 ++ effs3) := by
        rw [sweepAux, if_pos hdup, hcs, hms]
      rcases hsw : sweepAux env rest channels2 with e | effs3
      · rw [hsw] at ihok
        exact absurd ihok (by simp [sweepOk])
      · refine ⟨by rw [hred, hsw]; rfl, ?_⟩
        intro m hm hdup2 hfo hdo
        rw [hred, hsw]
        dsimp only [sweepEffects]
        rcases List.mem_cons.mp hm with heq | hmT
        · subst heq
          have hin := hmem hfo hdo
          simp only [List.mem_append]
          exact Or.inl (Or.inr hin)
        · have hin := ihmem m hmT hdup2 hfo hdo
          rw [hsw] at hin
          dsimp only [sweepEffects] at hin
          simp only [List.mem_append]
          exact Or.inr hin
    · have hred : sweepAux env (msg :: rest) channels =
          sweepAux env rest channels := by
        rw [sweepAux, if_neg hdup]
      obtain ⟨ihok, ihmem⟩ := ih channels hchT hfmT hdmT
      refine ⟨by rw [hred]; exact ihok, ?_⟩
      intro m hm hdup2 hfo hdo
      rcases List.mem_cons.mp hm with heq | hmT
      · subst heq
        exact absurd hdup2 hdup
      · rw [hred]
        exact ihmem m hmT hdup2 hfo hdo

/-- C9: the cleanup sweep tolerates missing messages: when every duplicate's
channel resolves and each fetch/delete either succeeds or reports not-found,
the sweep completes the whole sequence without raising and deletes every
live duplicate (a missing message is silently skipped). -/
theorem C9_sweep_skips_missing_messages (env : SweepEnv)
    (msgs : List FlaggedMessage)
    (hch : ∀ m ∈ msgs, m.is_duplicate = true →
      env.fetchChannelResult m.channel_id = Except.ok ())
    (hfm : ∀ m ∈ msgs, m.is_duplicate = true →
      env.fetchMessageResult m.id = Except.ok () ∨
      env.fetchMessageResult m.id = Except.error PyErr.notFoundError)
    (hdm : ∀ m ∈ msgs, m.is_duplicate = true →
      env.deleteResult m.id = Except.ok () ∨
      env.deleteResult m.id = Except.error PyErr.notFoundError) :
    sweepOk (delete_member_messages env msgs) = true ∧
    ∀ m ∈ msgs, m.is_duplicate = true →
      env.fetchMessageResult m.id = Except.ok () →
      env.deleteResult m.id = Except.ok () →
      SweepEffect.deleted m.id ∈ sweepEffects (delete_member_messages env msgs) :=
  sweepAux_completes env msgs [] hch hfm hdm

/-- Platform where message 2 no longer exists and everything else
succeeds. -/
def env3 : SweepEnv :=
  { fetchChannelResult := fun _ => Except.ok ()
    fetchMessageResult := fun mid =>
      if mid = 2 then Except.error PyErr.notFoundError else Except.ok ()
    deleteResult := fun _ => Except.ok () }

/-- Three duplicate-flagged messages in one channel; the second is already
gone on the platform. -/
def msgs3 : List FlaggedMessage :=
  [{ id := 1, channel_id := 7, is_duplicate := true },
   { id := 2, channel_id := 7, is_duplicate := true },
   { id := 3, channel_id := 7, is_duplicate := true }]

/-- Witness for C9 at the spec's scenario: sweep over three flagged messages
with the second already deleted completes, deleting messages 1 and 3. -/
theorem C9_sweep_skips_missing_messages_witness :
    sweepOk (delete_member_messages env3 msgs3) = true ∧
    SweepEffect.deleted 1 ∈ sweepEffects (delete_member_messages env3 msgs3) ∧
    SweepEffect.deleted 3 ∈ sweepEffects (delete_member_messages env3 msgs3) := by
  have h := C9_sweep_skips_missing_messages env3 msgs3
    (by intro m hm hdup; rfl)
    (by
      intro m hm hdup
      fin_cases hm
      · exact Or.inl rfl
      · exact Or.inr rfl
      · exact Or.inl rfl)
    (by intro m hm hdup; exact Or.inl rfl)
  refine ⟨h.1, ?_, ?_⟩
  · exact h.2 { id := 1, channel_id := 7, is_duplicate := true }
      (by decide) rfl rfl rfl
  · exact h.2 { id := 3, channel_id := 7, is_duplicate := true }
      (by decide) rfl rfl rfl
